import Mathlib

/-!
# Verification of the QUEUE repository's core logic

Shallow embedding of the WaitWatcher hospital waiting-list application:

* the public list page's client-side filter/sort pipeline
  (`filteredHospitals` in `src/pages/Index.tsx`),
* the haversine distance function (`calculateDistance` in `src/pages/Index.tsx`)
  and the SQL law-of-cosines distance (`calculate_distance` in the migration),
* the dashboard counter update (`updateWaitingCount`) and the QR self-check-in
  increment (`incrementWaitingList` in the scan page),
* the database trigger that creates a waiting list per hospital and the
  cascade delete (`create_waiting_list_for_hospital`, `ON DELETE CASCADE`).

JavaScript numbers are modelled as real numbers (`ℝ`); floating-point rounding
is outside the model.  JavaScript string operations act on lists of characters;
`toLowerCase` is modelled by `Char.toLower`.  JavaScript truthiness of a
nullable number is `x` present and nonzero; of a string, nonemptiness.
`Array.prototype.sort` (stable in ECMAScript) is modelled by the stable
`List.insertionSort` on the comparator's "compare ≤ 0" relation.
-/

open Real

/-- A user location as produced by the geolocation API (`Index.tsx`). -/
structure UserLocation where
  latitude : ℝ
  longitude : ℝ

/-- Hospital record as selected by the public list page (`Index.tsx`):
name and address are `NOT NULL` in the schema; `pincode`, `latitude`,
`longitude` are nullable.  Columns not used by the embedded logic
(contact fields, google maps link, timestamps) are omitted. -/
structure Hospital where
  id : ℕ
  name : String
  address : String
  pincode : Option String
  latitude : Option ℝ
  longitude : Option ℝ

/-- Location-mode state of the public list page (`locationMode` in `Index.tsx`). -/
inductive LocationMode where
  | nearby
  | pincode
  | all
deriving DecidableEq

/-- Conversion `degrees * Math.PI / 180`, the degree→radian conversion both distance
functions inline (`radians` in SQL). -/
noncomputable def radians (x : ℝ) : ℝ := x * Real.pi / 180

/-- JavaScript `Math.atan2(y, x)` on real arguments (signed zeros, infinities
and NaN do not exist in `ℝ` and are out of the model). -/
noncomputable def atan2 (y x : ℝ) : ℝ :=
  if 0 < x then Real.arctan (y / x)
  else if x < 0 then
    (if 0 ≤ y then Real.arctan (y / x) + Real.pi else Real.arctan (y / x) - Real.pi)
  else
    (if 0 < y then Real.pi / 2 else if y < 0 then -(Real.pi / 2) else 0)

/-- Function `calculateDistance` from `src/pages/Index.tsx` (lines 79–89): the
haversine great-circle distance with Earth radius 6371 km.

```js
const R = 6371;
const dLat = (lat2 - lat1) * Math.PI / 180;
const dLon = (lon2 - lon1) * Math.PI / 180;
const a = Math.sin(dLat/2) * Math.sin(dLat/2) +
          Math.cos(lat1 * Math.PI / 180) * Math.cos(lat2 * Math.PI / 180) *
          Math.sin(dLon/2) * Math.sin(dLon/2);
const c = 2 * Math.atan2(Math.sqrt(a), Math.sqrt(1-a));
return R * c;
``` -/
noncomputable def calculateDistance (lat1 lon1 lat2 lon2 : ℝ) : ℝ :=
  let R : ℝ := 6371
  let dLat := (lat2 - lat1) * Real.pi / 180
  let dLon := (lon2 - lon1) * Real.pi / 180
  let a := Real.sin (dLat / 2) * Real.sin (dLat / 2) +
    Real.cos (lat1 * Real.pi / 180) * Real.cos (lat2 * Real.pi / 180) *
    Real.sin (dLon / 2) * Real.sin (dLon / 2)
  let c := 2 * atan2 (Real.sqrt a) (Real.sqrt (1 - a))
  R * c

/-- Function `public.calculate_distance` from the SQL migration (`src/unnamed/part_000`):
`6371 * acos(cos(radians(lat1))*cos(radians(lat2))*cos(radians(lon2)-radians(lon1))
+ sin(radians(lat1))*sin(radians(lat2)))` — the spherical law of cosines with
no clamping of the `acos` argument. -/
noncomputable def calculate_distance (lat1 lon1 lat2 lon2 : ℝ) : ℝ :=
  6371 * Real.arccos
    (Real.cos (radians lat1) * Real.cos (radians lat2) *
      Real.cos (radians lon2 - radians lon1) +
     Real.sin (radians lat1) * Real.sin (radians lat2))

/-- Modelled from the spec (§4.1 contract for `computeDistanceKm`): the
spherical law-of-cosines distance
`6371 * acos(sin(lat1)sin(lat2) + cos(lat1)cos(lat2)cos(lon2−lon1))` with the
`acos` argument clamped to `[-1, 1]` before the inverse cosine, all latitudes
and longitudes converted from degrees to radians.  This definition follows the
spec's words and is compared against the two source implementations. -/
noncomputable def computeDistanceKmSpec (lat1 lon1 lat2 lon2 : ℝ) : ℝ :=
  6371 * Real.arccos (max (-1) (min 1
    (Real.sin (radians lat1) * Real.sin (radians lat2) +
     Real.cos (radians lat1) * Real.cos (radians lat2) *
       Real.cos (radians lon2 - radians lon1))))

/-- JavaScript `s.startsWith(t)`-style prefix test on character lists,
used to build the substring test of `String.prototype.includes`. -/
def listStartsWith : List Char → List Char → Bool
  | _, [] => true
  | [], _ :: _ => false
  | c :: s, d :: t => (c == d) && listStartsWith s t

/-- JavaScript `s.includes(sub)`: `sub` occurs contiguously in `s`. -/
def listContainsSub : List Char → List Char → Bool
  | [], sub => listStartsWith [] sub
  | s@(_ :: s'), sub => listStartsWith s sub || listContainsSub s' sub

/-- JavaScript `String.prototype.toLowerCase`, modelled per character. -/
def lowerStr (s : String) : List Char := s.data.map Char.toLower

/-- The search step of the filter callback in `Index.tsx` (lines 94–95):
`hospital.name.toLowerCase().includes(searchQuery.toLowerCase()) ||
 hospital.address.toLowerCase().includes(searchQuery.toLowerCase())`. -/
def matchesSearch (searchQuery : String) (hospital : Hospital) : Bool :=
  listContainsSub (lowerStr hospital.name) (lowerStr searchQuery) ||
  listContainsSub (lowerStr hospital.address) (lowerStr searchQuery)

/-- The trailing part of the filter callback (`Index.tsx` lines 112–116):
```js
if (locationMode === "pincode" && userPincode && hospital.pincode) {
  return hospital.pincode === userPincode;
}
return true;
```
Reached by fall-through whenever the nearby branch does not return. -/
def pincodeStep (locationMode : LocationMode) (userPincode : String)
    (hospital : Hospital) : Bool :=
  if locationMode = LocationMode.pincode ∧ userPincode ≠ "" then
    match hospital.pincode with
    | some p => if p ≠ "" then p == userPincode else true
    | none => true
  else true

open Classical in
/-- The filter callback of `filteredHospitals` (`Index.tsx` lines 92–117).
JS truthiness: `userLocation` is truthy iff present; `hospital.latitude`
(resp. `longitude`) is truthy iff present and nonzero.

```js
if (!matchesSearch) return false;
if (locationMode === "all") return true;
if (locationMode === "nearby" && userLocation && hospital.latitude && hospital.longitude) {
  const distance = calculateDistance(...);
  return distance <= 50;
}
if (locationMode === "pincode" && userPincode && hospital.pincode) {
  return hospital.pincode === userPincode;
}
return true;
``` -/
noncomputable def indexFilterPred (searchQuery : String) (locationMode : LocationMode)
    (userLocation : Option UserLocation) (userPincode : String)
    (hospital : Hospital) : Bool :=
  if matchesSearch searchQuery hospital = false then false
  else if locationMode = LocationMode.all then true
  else if locationMode = LocationMode.nearby then
    match userLocation, hospital.latitude, hospital.longitude with
    | some u, some hlat, some hlon =>
      if hlat ≠ 0 ∧ hlon ≠ 0 then
        decide (calculateDistance u.latitude u.longitude hlat hlon ≤ 50)
      else pincodeStep locationMode userPincode hospital
    | _, _, _ => pincodeStep locationMode userPincode hospital
  else pincodeStep locationMode userPincode hospital

open Classical in
/-- The sort comparator of `filteredHospitals` (`Index.tsx` lines 118–126):
```js
if (locationMode === "nearby" && userLocation && a.latitude && a.longitude
    && b.latitude && b.longitude) {
  return distA - distB;
}
return 0;
``` -/
noncomputable def indexCompare (locationMode : LocationMode)
    (userLocation : Option UserLocation) (a b : Hospital) : ℝ :=
  if locationMode = LocationMode.nearby then
    match userLocation, a.latitude, a.longitude, b.latitude, b.longitude with
    | some u, some alat, some alon, some blat, some blon =>
      if alat ≠ 0 ∧ alon ≠ 0 ∧ blat ≠ 0 ∧ blon ≠ 0 then
        calculateDistance u.latitude u.longitude alat alon -
        calculateDistance u.latitude u.longitude blat blon
      else 0
    | _, _, _, _, _ => 0
  else 0

open Classical in
/-- The full pipeline `filteredHospitals` (`Index.tsx` lines 91–126):
`hospitals.filter(...).sort(...)`, with the ECMAScript stable sort modelled by
insertion sort on the comparator's `compare a b ≤ 0` relation. -/
noncomputable def filteredHospitals (hospitals : List Hospital) (searchQuery : String)
    (userLocation : Option UserLocation) (locationMode : LocationMode)
    (userPincode : String) : List Hospital :=
  (hospitals.filter
      (indexFilterPred searchQuery locationMode userLocation userPincode)).insertionSort
    (fun a b => indexCompare locationMode userLocation a b ≤ 0)

/-- The distance the comparator computes for a hospital with coordinates
present (helper abstraction of `distA` / `distB` in the comparator). -/
noncomputable def distFromUser (u : UserLocation) (h : Hospital) : ℝ :=
  match h.latitude, h.longitude with
  | some hlat, some hlon => calculateDistance u.latitude u.longitude hlat hlon
  | _, _ => 0

/-- A hospital's coordinates are truthy in the JS sense: both present and
both nonzero. -/
def coordsTruthy (h : Hospital) : Prop :=
  (∃ x, h.latitude = some x ∧ x ≠ 0) ∧ (∃ y, h.longitude = some y ∧ y ≠ 0)

/-- A row of `public.waiting_lists` (migration `20250816104206…`):
`waiting_count INTEGER NOT NULL DEFAULT 0`, `last_updated TIMESTAMPTZ`.
Timestamps are modelled as naturals. -/
structure WaitingList where
  id : ℕ
  hospital_id : ℕ
  waiting_count : Int
  last_updated : ℕ

/-- Function `updateWaitingCount` from the dashboard (`Index.tsx` lines 490–521):
`newCount = Math.max(0, waitingList.waiting_count + change)` written back
together with `last_updated = new Date().toISOString()`.  The current time is
passed in as `now`. -/
def updateWaitingCount (now : ℕ) (waitingList : WaitingList) (change : Int) :
    WaitingList :=
  { waitingList with
    waiting_count := max 0 (waitingList.waiting_count + change)
    last_updated := now }

/-- The QR self-check-in update (`ScanQueue` in `Auth.tsx`, lines 213–238):
`waiting_count: waitingList.waiting_count + 1`, `last_updated = now` —
an unclamped increment by one. -/
def incrementWaitingList (now : ℕ) (waitingList : WaitingList) : WaitingList :=
  { waitingList with
    waiting_count := waitingList.waiting_count + 1
    last_updated := now }

/-- A row of `public.hospitals`; only the primary key participates in the
trigger/cascade logic. -/
structure HospitalRow where
  id : ℕ

/-- The two tables the trigger and the cascade relate. -/
structure DBState where
  hospitals : List HospitalRow
  waiting : List WaitingList

/-- The waiting list row inserted by the trigger function
`public.create_waiting_list_for_hospital`:
`INSERT INTO public.waiting_lists (hospital_id, waiting_count, last_updated)
VALUES (NEW.id, 0, now())` (`handle_new_hospital` inserts the same row with
 defaulted `last_updated`). -/
def create_waiting_list_for_hospital (new : HospitalRow) (rowId now : ℕ) :
    WaitingList :=
  { id := rowId, hospital_id := new.id, waiting_count := 0, last_updated := now }

/-- A hospital insert together with its `AFTER INSERT` trigger
(`on_hospital_created` / `create_waiting_list_trigger`): one transition
appends the hospital row and the trigger's waiting list row. -/
def insertHospital (st : DBState) (h : HospitalRow) (rowId now : ℕ) : DBState :=
  { hospitals := st.hospitals ++ [h]
    waiting := st.waiting ++ [create_waiting_list_for_hospital h rowId now] }

/-- Deletion of a hospital with the schema's
`hospital_id UUID NOT NULL REFERENCES public.hospitals(id) ON DELETE CASCADE`:
the hospital row and every waiting list row referencing it are removed. -/
def deleteHospital (st : DBState) (hid : ℕ) : DBState :=
  { hospitals := st.hospitals.filter (fun r => r.id != hid)
    waiting := st.waiting.filter (fun w => w.hospital_id != hid) }

/-- The waiting list rows belonging to a hospital id. -/
def waitingFor (st : DBState) (hid : ℕ) : List WaitingList :=
  st.waiting.filter (fun w => w.hospital_id == hid)

/-- The 1:1 hospital↔waiting-list invariant: every hospital has exactly one
waiting list row, and every waiting list row references an existing hospital. -/
def oneToOne (st : DBState) : Prop :=
  (∀ h ∈ st.hospitals, (waitingFor st h.id).length = 1) ∧
  (∀ w ∈ st.waiting, ∃ h ∈ st.hospitals, h.id = w.hospital_id)

/-- A hospital id is fresh for a state: no hospital row and no waiting list
row mentions it. -/
def freshId (st : DBState) (hid : ℕ) : Prop :=
  (∀ h ∈ st.hospitals, h.id ≠ hid) ∧ (∀ w ∈ st.waiting, w.hospital_id ≠ hid)

/-! ## Counter claims (C4, C5) -/

/-- Claim C5. For every waiting list entry and every integer delta, the
dashboard update produces an entry whose count is `max 0 (count + delta)` and
whose last-updated field is the current time; applying `-1` at count `0`
yields `0`, and `-1` (resp. `+1`) at count `3` yields `2` (resp. `4`). -/
theorem c5_applyDelta_spec (waitingList : WaitingList) (delta : Int) (now : ℕ) :
    (updateWaitingCount now waitingList delta).waiting_count =
        max 0 (waitingList.waiting_count + delta) ∧
    (updateWaitingCount now waitingList delta).last_updated = now ∧
    (updateWaitingCount now { waitingList with waiting_count := 0 } (-1)).waiting_count = 0 ∧
    (updateWaitingCount now { waitingList with waiting_count := 3 } (-1)).waiting_count = 2 ∧
    (updateWaitingCount now { waitingList with waiting_count := 3 } 1).waiting_count = 4 := by
  refine ⟨rfl, rfl, rfl, rfl, rfl⟩

/-- Claim C4. Starting from a non-negative count, both dashboard deltas (+1 and
-1) and the public self-check-in increment keep the count non-negative, and a
dashboard decrement at count 0 clamps to 0. -/
theorem c4_count_nonneg (waitingList : WaitingList) (now : ℕ)
    (h : 0 ≤ waitingList.waiting_count) :
    0 ≤ (updateWaitingCount now waitingList 1).waiting_count ∧
    0 ≤ (updateWaitingCount now waitingList (-1)).waiting_count ∧
    0 ≤ (incrementWaitingList now waitingList).waiting_count ∧
    (waitingList.waiting_count = 0 →
      (updateWaitingCount now waitingList (-1)).waiting_count = 0) := by
  refine ⟨le_max_left _ _, le_max_left _ _, ?_, ?_⟩
  · simpa [incrementWaitingList] using by omega
  · intro h0
    simp [updateWaitingCount, h0]

/-- Witness for C4 at the concrete entry with count 0 at time 5. -/
theorem c4_count_nonneg_witness :
    0 ≤ (updateWaitingCount 5 ⟨1, 1, 0, 0⟩ 1).waiting_count ∧
    0 ≤ (updateWaitingCount 5 ⟨1, 1, 0, 0⟩ (-1)).waiting_count ∧
    0 ≤ (incrementWaitingList 5 ⟨1, 1, 0, 0⟩).waiting_count ∧
    (updateWaitingCount 5 ⟨1, 1, 0, 0⟩ (-1)).waiting_count = 0 := by
  have h := c4_count_nonneg ⟨1, 1, 0, 0⟩ 5 (by decide)
  exact ⟨h.1, h.2.1, h.2.2.1, h.2.2.2 rfl⟩

/-! ## Trigger and cascade (C6) -/

/-- Claim C6. When a hospital with a fresh id is inserted, the trigger creates,
in the same transition, exactly one waiting list row for it, initialized with
count 0; the 1:1 hospital↔waiting-list invariant is preserved both by the
insert and by the cascading delete. -/
theorem c6_trigger_one_to_one (st : DBState) (h : HospitalRow) (rowId now hid : ℕ)
    (hfresh : freshId st h.id) (hinv : oneToOne st) :
    (waitingFor (insertHospital st h rowId now) h.id =
      [create_waiting_list_for_hospital h rowId now]) ∧
    (create_waiting_list_for_hospital h rowId now).waiting_count = 0 ∧
    oneToOne (insertHospital st h rowId now) ∧
    oneToOne (deleteHospital st hid) := by
  have hwf : waitingFor st h.id = [] := by
    simp only [waitingFor, List.filter_eq_nil_iff]
    intro w hw
    simpa using hfresh.2 w hw
  have hnew : waitingFor (insertHospital st h rowId now) h.id =
      [create_waiting_list_for_hospital h rowId now] := by
    have : waitingFor (insertHospital st h rowId now) h.id =
        waitingFor st h.id ++
          (List.filter (fun w => w.hospital_id == h.id)
            [create_waiting_list_for_hospital h rowId now]) := by
      simp [waitingFor, insertHospital, List.filter_append]
    rw [this, hwf]
    simp [create_waiting_list_for_hospital]
  refine ⟨hnew, rfl, ⟨?_, ?_⟩, ⟨?_, ?_⟩⟩
  · -- every hospital in the new state has exactly one waiting row
    intro g hg
    have hg2 : g ∈ st.hospitals ∨ g = h := by
      simpa [insertHospital] using hg
    rcases hg2 with hg' | hg'
    · -- an old hospital: its rows are unchanged because the new row is fresh
      have hne : g.id ≠ h.id := fun e => hfresh.1 g hg' e
      have : waitingFor (insertHospital st h rowId now) g.id = waitingFor st g.id := by
        simp [waitingFor, insertHospital, List.filter_append,
          create_waiting_list_for_hospital]
        intro e
        exact absurd e.symm hne
      rw [this]
      exact hinv.1 g hg'
    · -- the new hospital
      rw [hg', hnew]
      rfl
  · -- every waiting row in the new state has a hospital
    intro w hw
    have hw2 : w ∈ st.waiting ∨ w = create_waiting_list_for_hospital h rowId now := by
      simpa [insertHospital] using hw
    rcases hw2 with hw' | hw'
    · obtain ⟨g, hg, hge⟩ := hinv.2 w hw'
      exact ⟨g, by simp [insertHospital, List.mem_append, hg], hge⟩
    · refine ⟨h, by simp [insertHospital], ?_⟩
      simp [hw', create_waiting_list_for_hospital]
  · -- delete: surviving hospitals keep exactly one row
    intro g hg
    have hg' : g ∈ st.hospitals ∧ ¬ g.id = hid := by
      simpa [deleteHospital] using hg
    have : waitingFor (deleteHospital st hid) g.id = waitingFor st g.id := by
      simp only [waitingFor, deleteHospital, List.filter_filter]
      apply List.filter_congr
      intro w _
      cases hwe : (w.hospital_id == g.id) with
      | false => simp
      | true =>
        have : w.hospital_id = g.id := by simpa using hwe
        simp [this, hg'.2]
    rw [this]
    exact hinv.1 g hg'.1
  · -- delete: no orphaned waiting rows
    intro w hw
    have hw' : w ∈ st.waiting ∧ ¬ w.hospital_id = hid := by
      simpa [deleteHospital] using hw
    obtain ⟨g, hg, hge⟩ := hinv.2 w hw'.1
    refine ⟨g, ?_, hge⟩
    simp only [deleteHospital, List.mem_filter, bne_iff_ne, ne_eq, decide_eq_true_eq]
    exact ⟨hg, by simpa [hge] using hw'.2⟩

/-- Witness for C6: inserting hospital 2 into the one-hospital state, and
deleting hospital 1 from it. -/
theorem c6_trigger_one_to_one_witness :
    waitingFor (insertHospital ⟨[⟨1⟩], [⟨10, 1, 0, 0⟩]⟩ ⟨2⟩ 11 7) 2 =
      [create_waiting_list_for_hospital ⟨2⟩ 11 7] ∧
    oneToOne (insertHospital ⟨[⟨1⟩], [⟨10, 1, 0, 0⟩]⟩ ⟨2⟩ 11 7) ∧
    oneToOne (deleteHospital ⟨[⟨1⟩], [⟨10, 1, 0, 0⟩]⟩ 1) := by
  have hfresh : freshId ⟨[⟨1⟩], [⟨10, 1, 0, 0⟩]⟩ (2 : ℕ) := by
    constructor <;> · intro x hx; simp at hx; simp [hx]
  have hinv : oneToOne ⟨[⟨1⟩], [⟨10, 1, 0, 0⟩]⟩ := by
    constructor
    · intro h hh; simp at hh; subst hh; rfl
    · intro w hw; simp at hw; subst hw; exact ⟨⟨1⟩, by simp, rfl⟩
  have h := c6_trigger_one_to_one ⟨[⟨1⟩], [⟨10, 1, 0, 0⟩]⟩ ⟨2⟩ 11 7 1 hfresh hinv
  exact ⟨h.1, h.2.2.1, h.2.2.2⟩

/-! ## List sorting helpers -/

/-- An insertion sort whose relation holds between all pairs of elements of
the list leaves the list unchanged (the JS comparator returning `0`
everywhere preserves the order). -/
theorem insertionSort_eq_self_of_forall {α : Type*} (r : α → α → Prop) [DecidableRel r] :
    ∀ l : List α, (∀ a ∈ l, ∀ b ∈ l, r a b) → l.insertionSort r = l
  | [], _ => rfl
  | x :: t, h => by
    have ht : t.insertionSort r = t :=
      insertionSort_eq_self_of_forall r t
        (fun a ha b hb => h a (by simp [ha]) b (by simp [hb]))
    show List.orderedInsert r x (t.insertionSort r) = x :: t
    rw [ht]
    cases t with
    | nil => rfl
    | cons y s => exact List.orderedInsert_of_le r s (h x (by simp) y (by simp))

/-- Lemma: `orderedInsert` preserves sortedness when the relation is transitive and
total on a predicate `P` covering the inserted element and the list. -/
theorem sorted_orderedInsert_of_mem {α : Type*} (r : α → α → Prop) [DecidableRel r]
    (P : α → Prop)
    (htr : ∀ a b c, P a → P b → P c → r a b → r b c → r a c)
    (hto : ∀ a b, P a → P b → r a b ∨ r b a) :
    ∀ (l : List α) (a : α), P a → (∀ b ∈ l, P b) → l.Sorted r →
      (l.orderedInsert r a).Sorted r
  | [], a, _, _, _ => by simp
  | b :: t, a, hPa, hPl, hs => by
    rw [List.orderedInsert]
    have hs' := hs
    rw [List.sorted_cons] at hs'
    by_cases hr : r a b
    · rw [if_pos hr, List.sorted_cons]
      refine ⟨?_, hs⟩
      intro x hx
      rcases List.mem_cons.1 hx with rfl | hx'
      · exact hr
      · exact htr a b x hPa (hPl b (by simp)) (hPl x (by simp [hx'])) hr (hs'.1 x hx')
    · rw [if_neg hr, List.sorted_cons]
      refine ⟨?_, sorted_orderedInsert_of_mem r P htr hto t a hPa
        (fun y hy => hPl y (by simp [hy])) hs'.2⟩
      intro x hx
      rcases (List.mem_orderedInsert r).1 hx with heq | hx'
      · rw [heq]
        rcases hto a b hPa (hPl b (by simp)) with h1 | h1
        · exact absurd h1 hr
        · exact h1
      · exact hs'.1 x hx'

/-- Insertion sort sorts any list all of whose elements satisfy a predicate
on which the relation is transitive and total. -/
theorem sorted_insertionSort_of_mem {α : Type*} (r : α → α → Prop) [DecidableRel r]
    (P : α → Prop)
    (htr : ∀ a b c, P a → P b → P c → r a b → r b c → r a c)
    (hto : ∀ a b, P a → P b → r a b ∨ r b a) :
    ∀ l : List α, (∀ a ∈ l, P a) → (l.insertionSort r).Sorted r
  | [], _ => by simp
  | x :: t, h => by
    show (List.orderedInsert r x (t.insertionSort r)).Sorted r
    refine sorted_orderedInsert_of_mem r P htr hto _ x (h x (by simp)) ?_ ?_
    · intro b hb
      exact h b (by simp [(List.mem_insertionSort r).1 hb])
    · exact sorted_insertionSort_of_mem r P htr hto t (fun a ha => h a (by simp [ha]))

/-! ## Characterization of the filter callback and comparator -/

/-- The fall-through line `return true`: outside pincode mode the final
conditional never fires. -/
theorem pincodeStep_not_pincode {mode : LocationMode} (pin : String) (h : Hospital)
    (hm : mode ≠ LocationMode.pincode) : pincodeStep mode pin h = true := by
  simp [pincodeStep, hm]

/-- In `all` mode the filter callback is exactly the search test. -/
theorem indexFilterPred_all (q : String) (loc : Option UserLocation) (pin : String)
    (h : Hospital) :
    indexFilterPred q LocationMode.all loc pin h = matchesSearch q h := by
  cases hs : matchesSearch q h <;> simp [indexFilterPred, hs]

/-- In `pincode` mode the filter callback is the search test followed by the
pincode conditional. -/
theorem indexFilterPred_pincode (q : String) (loc : Option UserLocation) (pin : String)
    (h : Hospital) :
    indexFilterPred q LocationMode.pincode loc pin h =
      (matchesSearch q h && pincodeStep LocationMode.pincode pin h) := by
  cases hs : matchesSearch q h <;> simp [indexFilterPred, hs]

/-- In `nearby` mode, a hospital whose coordinates are not truthy (absent or
zero) falls through the distance test: the callback reduces to the search
test alone, whatever the user location and pincode. -/
theorem indexFilterPred_nearby_not_truthy (q : String) (loc : Option UserLocation)
    (pin : String) (h : Hospital) (hnt : ¬ coordsTruthy h) :
    indexFilterPred q LocationMode.nearby loc pin h = matchesSearch q h := by
  have hp : pincodeStep LocationMode.nearby pin h = true :=
    pincodeStep_not_pincode pin h (by simp)
  cases hs : matchesSearch q h
  · simp [indexFilterPred, hs]
  · simp only [indexFilterPred, hs, Bool.true_eq_false, if_false,
      reduceIte]
    rcases loc with _ | u
    · simp [hp]
    · rcases hla : h.latitude with _ | x
      · simp [hp]
      · rcases hlo : h.longitude with _ | y
        · simp [hp]
        · have : ¬ (x ≠ 0 ∧ y ≠ 0) := by
            intro hc
            exact hnt ⟨⟨x, hla, hc.1⟩, ⟨y, hlo, hc.2⟩⟩
          simp [this, hp]

/-- In `nearby` mode with a user location, a hospital with truthy coordinates
is kept iff it matches the search and its computed distance is at most 50 km. -/
theorem indexFilterPred_nearby_truthy (q : String) (u : UserLocation) (pin : String)
    (h : Hospital) {x y : ℝ} (hla : h.latitude = some x) (hx : x ≠ 0)
    (hlo : h.longitude = some y) (hy : y ≠ 0) :
    (indexFilterPred q LocationMode.nearby (some u) pin h = true ↔
      (matchesSearch q h = true ∧
        calculateDistance u.latitude u.longitude x y ≤ 50)) := by
  cases hs : matchesSearch q h
  · simp [indexFilterPred, hs]
  · simp [indexFilterPred, hs, hla, hlo, hx, hy]

/-- Outside `nearby` mode the comparator returns 0 for every pair. -/
theorem indexCompare_not_nearby {mode : LocationMode} (loc : Option UserLocation)
    (a b : Hospital) (hm : mode ≠ LocationMode.nearby) :
    indexCompare mode loc a b = 0 := by
  simp [indexCompare, hm]

/-- Without a user location the comparator returns 0 for every pair. -/
theorem indexCompare_no_location (mode : LocationMode) (a b : Hospital) :
    indexCompare mode none a b = 0 := by
  rcases mode <;> simp [indexCompare]

/-- When either hospital's coordinates are not truthy, the comparator
returns 0. -/
theorem indexCompare_not_truthy (mode : LocationMode) (loc : Option UserLocation)
    (a b : Hospital) (hnt : ¬ coordsTruthy a ∨ ¬ coordsTruthy b) :
    indexCompare mode loc a b = 0 := by
  rcases hm : mode with _ | _ | _
  · simp only [indexCompare, reduceIte]
    rcases loc with _ | u
    · rfl
    rcases hala : a.latitude with _ | ax
    · rfl
    rcases halo : a.longitude with _ | ay
    · rfl
    rcases hbla : b.latitude with _ | bx
    · rfl
    rcases hblo : b.longitude with _ | by'
    · rfl
    have : ¬ (ax ≠ 0 ∧ ay ≠ 0 ∧ bx ≠ 0 ∧ by' ≠ 0) := by
      intro hc
      rcases hnt with hna | hnb
      · exact hna ⟨⟨ax, hala, hc.1⟩, ⟨ay, halo, hc.2.1⟩⟩
      · exact hnb ⟨⟨bx, hbla, hc.2.2.1⟩, ⟨by', hblo, hc.2.2.2⟩⟩
    simp [this]
  · simp [indexCompare]
  · simp [indexCompare]

/-- With a user location and truthy coordinates on both sides, the comparator
is the difference of the computed distances. -/
theorem indexCompare_truthy (u : UserLocation) (a b : Hospital)
    (hta : coordsTruthy a) (htb : coordsTruthy b) :
    indexCompare LocationMode.nearby (some u) a b =
      distFromUser u a - distFromUser u b := by
  obtain ⟨⟨ax, hala, hax⟩, ⟨ay, halo, hay⟩⟩ := hta
  obtain ⟨⟨bx, hbla, hbx⟩, ⟨by', hblo, hby⟩⟩ := htb
  simp [indexCompare, hala, halo, hbla, hblo, hax, hay, hbx, hby, distFromUser]

/-! ## Pipeline shape lemmas -/

/-- Outside `nearby` mode (or without a user location) the comparator is
constantly 0, so the stable sort leaves the filtered list unchanged: the
pipeline is just the filter, in the original order. -/
theorem filteredHospitals_eq_filter (hs : List Hospital) (q : String)
    (loc : Option UserLocation) (mode : LocationMode) (pin : String)
    (hm : mode ≠ LocationMode.nearby ∨ loc = none) :
    filteredHospitals hs q loc mode pin =
      hs.filter (indexFilterPred q mode loc pin) := by
  unfold filteredHospitals
  apply insertionSort_eq_self_of_forall
  intro a _ b _
  rcases hm with hm | hm
  · rw [indexCompare_not_nearby loc a b hm]
  · rw [hm, indexCompare_no_location]

/-- Membership in the pipeline output is membership in the filtered list. -/
theorem mem_filteredHospitals (hs : List Hospital) (q : String)
    (loc : Option UserLocation) (mode : LocationMode) (pin : String) (h : Hospital) :
    h ∈ filteredHospitals hs q loc mode pin ↔
      h ∈ hs ∧ indexFilterPred q mode loc pin h = true := by
  unfold filteredHospitals
  rw [List.mem_insertionSort, List.mem_filter]

/-- Fact: `s.includes("")` is true for every string `s`. -/
theorem listContainsSub_nil : ∀ s : List Char, listContainsSub s [] = true
  | [] => rfl
  | _ :: _ => rfl

/-- The empty search query matches every hospital. -/
theorem matchesSearch_empty (h : Hospital) : matchesSearch "" h = true := by
  have he : lowerStr "" = [] := rfl
  rw [matchesSearch, he, listContainsSub_nil, Bool.true_or]

/-! ## Search step (C8) -/

/-- Claim C8. A hospital is kept by the `all`-mode pipeline iff the lower-cased
query is a substring of its lower-cased name or of its lower-cased address,
and the empty query keeps every hospital (in the original order). -/
theorem c8_search_filter (hs : List Hospital) (q : String)
    (loc : Option UserLocation) (pin : String) :
    (∀ h, h ∈ filteredHospitals hs q loc LocationMode.all pin ↔
      h ∈ hs ∧ (listContainsSub (lowerStr h.name) (lowerStr q) = true ∨
                listContainsSub (lowerStr h.address) (lowerStr q) = true)) ∧
    filteredHospitals hs "" loc LocationMode.all pin = hs := by
  constructor
  · intro h
    rw [mem_filteredHospitals, indexFilterPred_all, matchesSearch, Bool.or_eq_true]
  · rw [filteredHospitals_eq_filter _ _ _ _ _ (Or.inl (by decide))]
    refine List.filter_eq_self.2 ?_
    intro h _
    rw [indexFilterPred_all]
    exact matchesSearch_empty h

/-! ## Pincode mode (C2) -/

/-- The pincode conditional keeps a hospital iff its pincode, when present
and nonempty, equals the user's pincode (absent or empty pincodes fall
through to `return true`). -/
theorem pincodeStep_eq_true_iff (pin : String) (h : Hospital) (hpin : pin ≠ "") :
    (pincodeStep LocationMode.pincode pin h = true ↔
      ∀ p, h.pincode = some p → p ≠ "" → p = pin) := by
  rw [pincodeStep, if_pos ⟨rfl, hpin⟩]
  rcases hp : h.pincode with _ | p
  · simp
  · by_cases hpe : p = ""
    · subst hpe
      simp
    · simp [hpe]

/-- Claim C2 counterexample. In pincode mode with code `"12345"`, a hospital
whose stored pincode is `null` is returned by the pipeline (the filter
callback falls through to `return true`), contradicting the claim that such
hospitals are excluded. -/
theorem c2_counterexample :
    (⟨1, "A", "x", none, none, none⟩ : Hospital) ∈
      filteredHospitals [⟨1, "A", "x", none, none, none⟩] "" none
        LocationMode.pincode "12345" ∧
    (⟨1, "A", "x", none, none, none⟩ : Hospital).pincode = none := by
  refine ⟨?_, rfl⟩
  rw [mem_filteredHospitals]
  refine ⟨by simp, ?_⟩
  rw [indexFilterPred_pincode, matchesSearch_empty, Bool.true_and,
    pincodeStep, if_pos ⟨rfl, by decide⟩]

/-- Claim C2 amended. Under pincode mode with a non-empty code, the pipeline
returns exactly the hospitals that match the search and whose pincode, when
present and non-empty, equals the code: hospitals with a `null` (or empty)
pincode fall through the conditional and are also returned. -/
theorem c2_pincode_filter (hs : List Hospital) (q pin : String)
    (loc : Option UserLocation) (h : Hospital) (hpin : pin ≠ "") :
    h ∈ filteredHospitals hs q loc LocationMode.pincode pin ↔
      h ∈ hs ∧ matchesSearch q h = true ∧
        (∀ p, h.pincode = some p → p ≠ "" → p = pin) := by
  rw [mem_filteredHospitals, indexFilterPred_pincode, Bool.and_eq_true,
    pincodeStep_eq_true_iff pin h hpin]

/-- Witness for the amended C2 at a hospital whose pincode equals the code. -/
theorem c2_pincode_filter_witness :
    ("12345" : String) ≠ "" ∧
    ((⟨1, "A", "x", some "12345", none, none⟩ : Hospital) ∈
        filteredHospitals [⟨1, "A", "x", some "12345", none, none⟩] "" none
          LocationMode.pincode "12345" ↔
      (⟨1, "A", "x", some "12345", none, none⟩ : Hospital) ∈
          [(⟨1, "A", "x", some "12345", none, none⟩ : Hospital)] ∧
        matchesSearch "" ⟨1, "A", "x", some "12345", none, none⟩ = true ∧
        (∀ p, (⟨1, "A", "x", some "12345", none, none⟩ : Hospital).pincode = some p →
          p ≠ "" → p = "12345")) :=
  ⟨by decide,
    c2_pincode_filter [⟨1, "A", "x", some "12345", none, none⟩] "" "12345" none
      ⟨1, "A", "x", some "12345", none, none⟩ (by decide)⟩

/-! ## Nearby mode (C1, C10) -/

/-- The haversine distance from a point to itself is 0 (the `atan2` branch
`atan2 0 1 = arctan 0 = 0`). -/
theorem calculateDistance_self (lat lon : ℝ) :
    calculateDistance lat lon lat lon = 0 := by
  unfold calculateDistance
  simp only [sub_self, zero_mul, zero_div, Real.sin_zero, mul_zero, add_zero,
    zero_add, Real.sqrt_zero, sub_zero, Real.sqrt_one]
  rw [atan2, if_pos one_pos]
  simp

/-- Claim C1 counterexample. In nearby mode with a present user location, a
hospital whose coordinates are `null` is returned by the pipeline (the filter
callback falls through to `return true`), contradicting the claim that
hospitals lacking coordinates are excluded from nearby mode. -/
theorem c1_counterexample :
    (⟨1, "A", "x", none, none, none⟩ : Hospital) ∈
      filteredHospitals [⟨1, "A", "x", none, none, none⟩] "" (some ⟨1, 1⟩)
        LocationMode.nearby "" ∧
    (⟨1, "A", "x", none, none, none⟩ : Hospital).latitude = none := by
  refine ⟨?_, rfl⟩
  rw [mem_filteredHospitals]
  refine ⟨by simp, ?_⟩
  rw [indexFilterPred_nearby_not_truthy]
  · exact matchesSearch_empty _
  · rintro ⟨⟨x, hx, -⟩, -⟩
    simp at hx

/-- Claim C1 amended. In nearby mode with radius 50 km, every returned hospital
whose coordinates are truthy (present and nonzero) has computed distance at
most 50 km from the origin; hospitals without truthy coordinates bypass the
distance test and may also be returned. -/
theorem c1_nearby_radius (hs : List Hospital) (q pin : String) (u : UserLocation)
    (h : Hospital) (x y : ℝ)
    (hmem : h ∈ filteredHospitals hs q (some u) LocationMode.nearby pin)
    (hla : h.latitude = some x) (hx : x ≠ 0)
    (hlo : h.longitude = some y) (hy : y ≠ 0) :
    calculateDistance u.latitude u.longitude x y ≤ 50 := by
  rw [mem_filteredHospitals] at hmem
  exact ((indexFilterPred_nearby_truthy q u pin h hla hx hlo hy).1 hmem.2).2

/-- Witness for the amended C1: a hospital at the user's own (nonzero)
coordinates is returned and its distance is within 50 km. -/
theorem c1_nearby_radius_witness :
    (⟨1, "A", "x", none, some 10, some 20⟩ : Hospital) ∈
      filteredHospitals [⟨1, "A", "x", none, some 10, some 20⟩] "" (some ⟨10, 20⟩)
        LocationMode.nearby "" ∧
    calculateDistance (10 : ℝ) 20 10 20 ≤ 50 := by
  have hm : (⟨1, "A", "x", none, some 10, some 20⟩ : Hospital) ∈
      filteredHospitals [⟨1, "A", "x", none, some 10, some 20⟩] "" (some ⟨10, 20⟩)
        LocationMode.nearby "" := by
    rw [mem_filteredHospitals]
    refine ⟨by simp, ?_⟩
    refine (indexFilterPred_nearby_truthy "" ⟨10, 20⟩ ""
      ⟨1, "A", "x", none, some 10, some 20⟩ rfl (by norm_num) rfl (by norm_num)).2 ?_
    refine ⟨matchesSearch_empty _, ?_⟩
    rw [show (⟨10, 20⟩ : UserLocation).latitude = 10 from rfl,
      show (⟨10, 20⟩ : UserLocation).longitude = 20 from rfl,
      calculateDistance_self]
    norm_num
  exact ⟨hm, c1_nearby_radius _ "" "" ⟨10, 20⟩ _ 10 20 hm rfl (by norm_num) rfl
    (by norm_num)⟩

/-- Claim C10. A hospital whose latitude or longitude is exactly 0 is treated
as lacking coordinates by the truthiness tests: in nearby mode the filter
callback skips the distance test and reduces to the search match alone, and
the sort comparator returns 0 against every other hospital. -/
theorem c10_zero_coordinate (q pin : String) (loc : Option UserLocation)
    (h : Hospital) (hz : h.latitude = some 0 ∨ h.longitude = some 0) :
    indexFilterPred q LocationMode.nearby loc pin h = matchesSearch q h ∧
    (∀ b, indexCompare LocationMode.nearby loc h b = 0 ∧
          indexCompare LocationMode.nearby loc b h = 0) := by
  have hnt : ¬ coordsTruthy h := by
    rintro ⟨⟨x, hx, hx0⟩, ⟨y, hy, hy0⟩⟩
    rcases hz with hz | hz
    · rw [hz] at hx
      exact hx0 (Option.some.inj hx).symm
    · rw [hz] at hy
      exact hy0 (Option.some.inj hy).symm
  exact ⟨indexFilterPred_nearby_not_truthy q loc pin h hnt,
    fun b => ⟨indexCompare_not_truthy _ loc h b (Or.inl hnt),
      indexCompare_not_truthy _ loc b h (Or.inr hnt)⟩⟩

/-- Witness for C10 at a hospital on the equator (latitude exactly 0). -/
theorem c10_zero_coordinate_witness :
    ((⟨1, "A", "x", none, some 0, some 5⟩ : Hospital).latitude = some 0 ∨
      (⟨1, "A", "x", none, some 0, some 5⟩ : Hospital).longitude = some 0) ∧
    (indexFilterPred "" LocationMode.nearby (some ⟨1, 1⟩) ""
        ⟨1, "A", "x", none, some 0, some 5⟩ =
      matchesSearch "" ⟨1, "A", "x", none, some 0, some 5⟩ ∧
    (∀ b, indexCompare LocationMode.nearby (some ⟨1, 1⟩)
        ⟨1, "A", "x", none, some 0, some 5⟩ b = 0 ∧
      indexCompare LocationMode.nearby (some ⟨1, 1⟩) b
        ⟨1, "A", "x", none, some 0, some 5⟩ = 0)) :=
  ⟨Or.inl rfl,
    c10_zero_coordinate "" "" (some ⟨1, 1⟩) ⟨1, "A", "x", none, some 0, some 5⟩
      (Or.inl rfl)⟩

/-! ## Sort order (C7) -/

/-- Claim C7 counterexample. In `all` mode the comparator returns 0 for every
pair, so the pipeline preserves the input order: on the input
`["B", "A"]` the output is still `["B", "A"]`, which is not ascending by
name ("A" collates strictly before "B" in any locale), contradicting the
claim that the output is name-sorted for every input list. -/
theorem c7_counterexample :
    filteredHospitals
        [⟨1, "B", "x", none, none, none⟩, ⟨2, "A", "y", none, none, none⟩]
        "" none LocationMode.all "" =
      [⟨1, "B", "x", none, none, none⟩, ⟨2, "A", "y", none, none, none⟩] ∧
    ("A" : String).data < ("B" : String).data := by
  constructor
  · rw [filteredHospitals_eq_filter _ _ _ _ _ (Or.inl (by decide))]
    refine List.filter_eq_self.2 ?_
    intro h _
    rw [indexFilterPred_all]
    exact matchesSearch_empty h
  · decide

/-- Claim C7 amended. Outside nearby mode (where the comparator is constantly
0) the pipeline preserves the input's relative order — it is exactly the
filter; the output is therefore name-sorted only when the input already is
(the fetch orders by name server-side).  In nearby mode with a user
location, when every listed hospital has truthy coordinates the output is
sorted ascending by computed distance; ties keep the original relative order
because the model sort is stable. -/
theorem c7_sort_order :
    (∀ (hs : List Hospital) (q pin : String) (loc : Option UserLocation)
        (mode : LocationMode), mode ≠ LocationMode.nearby →
      filteredHospitals hs q loc mode pin =
        hs.filter (indexFilterPred q mode loc pin)) ∧
    (∀ (hs : List Hospital) (q pin : String) (u : UserLocation),
      (∀ h ∈ hs, coordsTruthy h) →
      (filteredHospitals hs q (some u) LocationMode.nearby pin).Sorted
        (fun a b => distFromUser u a ≤ distFromUser u b)) := by
  constructor
  · intro hs q pin loc mode hm
    exact filteredHospitals_eq_filter hs q loc mode pin (Or.inl hm)
  · intro hs q pin u hall
    have hsorted : (filteredHospitals hs q (some u) LocationMode.nearby pin).Sorted
        (fun a b => indexCompare LocationMode.nearby (some u) a b ≤ 0) := by
      unfold filteredHospitals
      refine sorted_insertionSort_of_mem _ coordsTruthy ?_ ?_ _ ?_
      · intro a b c hta htb htc hab hbc
        rw [indexCompare_truthy u a b hta htb] at hab
        rw [indexCompare_truthy u b c htb htc] at hbc
        rw [indexCompare_truthy u a c hta htc]
        linarith
      · intro a b hta htb
        rw [indexCompare_truthy u a b hta htb, indexCompare_truthy u b a htb hta]
        rcases le_total (distFromUser u a) (distFromUser u b) with hle | hle
        · exact Or.inl (by linarith)
        · exact Or.inr (by linarith)
      · intro a ha
        exact hall a (List.mem_filter.1 ha).1
    refine List.Pairwise.imp_of_mem ?_ hsorted
    intro a b ha hb hab
    have hta : coordsTruthy a := hall a ((mem_filteredHospitals _ _ _ _ _ _).1 ha).1
    have htb : coordsTruthy b := hall b ((mem_filteredHospitals _ _ _ _ _ _).1 hb).1
    rw [indexCompare_truthy u a b hta htb] at hab
    linarith

/-- Witness for the amended C7: `all` mode on a two-element list, and nearby
mode on two hospitals with truthy coordinates at the user's own location. -/
theorem c7_sort_order_witness :
    (LocationMode.all ≠ LocationMode.nearby ∧
      filteredHospitals [⟨1, "B", "x", none, none, none⟩] "" none
          LocationMode.all "" =
        List.filter (indexFilterPred "" LocationMode.all none "")
          [⟨1, "B", "x", none, none, none⟩]) ∧
    ((∀ h ∈ [(⟨1, "A", "x", none, some 10, some 20⟩ : Hospital),
             ⟨2, "B", "y", none, some 10, some 20⟩], coordsTruthy h) ∧
      (filteredHospitals
          [⟨1, "A", "x", none, some 10, some 20⟩, ⟨2, "B", "y", none, some 10, some 20⟩]
          "" (some ⟨10, 20⟩) LocationMode.nearby "").Sorted
        (fun a b => distFromUser ⟨10, 20⟩ a ≤ distFromUser ⟨10, 20⟩ b)) := by
  have hall : ∀ h ∈ [(⟨1, "A", "x", none, some 10, some 20⟩ : Hospital),
      ⟨2, "B", "y", none, some 10, some 20⟩], coordsTruthy h := by
    intro h hh
    rcases List.mem_cons.1 hh with rfl | hh'
    · exact ⟨⟨10, rfl, by norm_num⟩, ⟨20, rfl, by norm_num⟩⟩
    · have : h = ⟨2, "B", "y", none, some 10, some 20⟩ := by simpa using hh'
      rw [this]
      exact ⟨⟨10, rfl, by norm_num⟩, ⟨20, rfl, by norm_num⟩⟩
  exact ⟨⟨by decide, c7_sort_order.1 _ "" "" none LocationMode.all (by decide)⟩,
    ⟨hall, c7_sort_order.2 _ "" "" ⟨10, 20⟩ hall⟩⟩

/-! ## Distance function analysis (C3, C9) -/

/-- The law-of-cosines argument never exceeds 1 (for arbitrary real angles). -/
theorem law_arg_le_one (A B C : ℝ) :
    Real.cos A * Real.cos B * Real.cos C + Real.sin A * Real.sin B ≤ 1 := by
  have h1 := Real.sin_sq_add_cos_sq A
  have h2 := Real.sin_sq_add_cos_sq B
  have hc1 := Real.neg_one_le_cos C
  have hc2 := Real.cos_le_one C
  rcases le_or_lt 0 (Real.cos A * Real.cos B) with hp | hp
  · nlinarith [sq_nonneg (Real.sin A - Real.sin B), sq_nonneg (Real.cos A - Real.cos B),
      mul_nonneg hp (by linarith : (0 : ℝ) ≤ 1 - Real.cos C)]
  · nlinarith [sq_nonneg (Real.sin A - Real.sin B), sq_nonneg (Real.cos A + Real.cos B),
      mul_nonneg (le_of_lt (neg_pos.2 hp)) (by linarith : (0 : ℝ) ≤ 1 + Real.cos C)]

/-- The law-of-cosines argument is never below -1. -/
theorem law_arg_ge_neg_one (A B C : ℝ) :
    (-1 : ℝ) ≤ Real.cos A * Real.cos B * Real.cos C + Real.sin A * Real.sin B := by
  have h1 := Real.sin_sq_add_cos_sq A
  have h2 := Real.sin_sq_add_cos_sq B
  have hc1 := Real.neg_one_le_cos C
  have hc2 := Real.cos_le_one C
  rcases le_or_lt 0 (Real.cos A * Real.cos B) with hp | hp
  · nlinarith [sq_nonneg (Real.sin A + Real.sin B), sq_nonneg (Real.cos A - Real.cos B),
      mul_nonneg hp (by linarith : (0 : ℝ) ≤ 1 + Real.cos C)]
  · nlinarith [sq_nonneg (Real.sin A + Real.sin B), sq_nonneg (Real.cos A + Real.cos B),
      mul_nonneg (le_of_lt (neg_pos.2 hp)) (by linarith : (0 : ℝ) ≤ 1 - Real.cos C)]

/-- Half-angle identity in product form. -/
theorem sin_half_sq (x : ℝ) :
    Real.sin (x / 2) * Real.sin (x / 2) = (1 - Real.cos x) / 2 := by
  have h := Real.cos_two_mul (x / 2)
  rw [show (2 : ℝ) * (x / 2) = x by ring] at h
  have h3 := Real.sin_sq_add_cos_sq (x / 2)
  rw [show Real.sin (x / 2) * Real.sin (x / 2) = Real.sin (x / 2) ^ 2 by ring]
  linarith

/-- The haversine angle formula `2·atan2(√a, √(1-a))` agrees with
`arccos(1 - 2a)` on `a ∈ [0, 1]`. -/
theorem two_atan2_sqrt_eq_arccos {a : ℝ} (h0 : 0 ≤ a) (h1 : a ≤ 1) :
    2 * atan2 (Real.sqrt a) (Real.sqrt (1 - a)) = Real.arccos (1 - 2 * a) := by
  rcases eq_or_lt_of_le h1 with heq | hlt
  · rw [heq]
    rw [show (1 : ℝ) - 1 = 0 by ring, Real.sqrt_zero, Real.sqrt_one]
    rw [atan2, if_neg (lt_irrefl 0), if_neg (lt_irrefl 0), if_pos one_pos]
    rw [show (1 : ℝ) - 2 * 1 = -1 by ring, Real.arccos_neg_one]
    ring
  · have hx : 0 < Real.sqrt (1 - a) := Real.sqrt_pos.2 (by linarith)
    rw [atan2, if_pos hx]
    have hsa1 : Real.sqrt a < 1 := by
      nlinarith [Real.sq_sqrt h0, Real.sqrt_nonneg a]
    have harcsin := Real.arcsin_eq_arctan
      (Set.mem_Ioo.2 ⟨by linarith [Real.sqrt_nonneg a], hsa1⟩)
    rw [Real.sq_sqrt h0] at harcsin
    rw [← harcsin]
    have hθ0 : 0 ≤ Real.arcsin (Real.sqrt a) := Real.arcsin_nonneg.2 (Real.sqrt_nonneg a)
    have hθπ : Real.arcsin (Real.sqrt a) ≤ Real.pi / 2 := Real.arcsin_le_pi_div_two _
    have hcos : Real.cos (2 * Real.arcsin (Real.sqrt a)) = 1 - 2 * a := by
      rw [Real.cos_two_mul, Real.cos_sq',
        Real.sin_arcsin (by linarith [Real.sqrt_nonneg a]) (le_of_lt hsa1),
        Real.sq_sqrt h0]
      ring
    rw [← hcos, Real.arccos_cos (by linarith) (by linarith)]

/-- Restatement of `calculateDistance` with its let-bindings inlined. -/
theorem calculateDistance_def (lat1 lon1 lat2 lon2 : ℝ) :
    calculateDistance lat1 lon1 lat2 lon2 =
      6371 * (2 * atan2
        (Real.sqrt (Real.sin ((lat2 - lat1) * Real.pi / 180 / 2) *
            Real.sin ((lat2 - lat1) * Real.pi / 180 / 2) +
          Real.cos (lat1 * Real.pi / 180) * Real.cos (lat2 * Real.pi / 180) *
            Real.sin ((lon2 - lon1) * Real.pi / 180 / 2) *
            Real.sin ((lon2 - lon1) * Real.pi / 180 / 2)))
        (Real.sqrt (1 - (Real.sin ((lat2 - lat1) * Real.pi / 180 / 2) *
            Real.sin ((lat2 - lat1) * Real.pi / 180 / 2) +
          Real.cos (lat1 * Real.pi / 180) * Real.cos (lat2 * Real.pi / 180) *
            Real.sin ((lon2 - lon1) * Real.pi / 180 / 2) *
            Real.sin ((lon2 - lon1) * Real.pi / 180 / 2))))) := rfl

/-- Core bridge: the haversine angle equals the arccos of the law-of-cosines
argument (all angles already in radians). -/
theorem haversine_core (A B C D : ℝ) :
    2 * atan2
        (Real.sqrt (Real.sin ((B - A) / 2) * Real.sin ((B - A) / 2) +
          Real.cos A * Real.cos B * Real.sin ((D - C) / 2) * Real.sin ((D - C) / 2)))
        (Real.sqrt (1 - (Real.sin ((B - A) / 2) * Real.sin ((B - A) / 2) +
          Real.cos A * Real.cos B * Real.sin ((D - C) / 2) * Real.sin ((D - C) / 2)))) =
      Real.arccos (Real.cos A * Real.cos B * Real.cos (D - C) +
        Real.sin A * Real.sin B) := by
  set ah := Real.sin ((B - A) / 2) * Real.sin ((B - A) / 2) +
    Real.cos A * Real.cos B * Real.sin ((D - C) / 2) * Real.sin ((D - C) / 2) with hah
  have harg : ah = (1 - (Real.cos A * Real.cos B * Real.cos (D - C) +
      Real.sin A * Real.sin B)) / 2 := by
    have hs1 := sin_half_sq (B - A)
    have hs2 := sin_half_sq (D - C)
    have hcs := Real.cos_sub B A
    rw [hah]
    linear_combination hs1 + Real.cos A * Real.cos B * hs2 - (1 / 2) * hcs
  have hge := law_arg_ge_neg_one A B (D - C)
  have hle := law_arg_le_one A B (D - C)
  have h0 : 0 ≤ ah := by rw [harg]; linarith
  have h1 : ah ≤ 1 := by rw [harg]; linarith
  rw [two_atan2_sqrt_eq_arccos h0 h1]
  congr 1
  rw [harg]
  ring

/-- Shared form of the client distance: `calculateDistance` is
`6371 * arccos` of the (unclamped) law-of-cosines argument. -/
theorem calculateDistance_eq_arccos (lat1 lon1 lat2 lon2 : ℝ) :
    calculateDistance lat1 lon1 lat2 lon2 =
      6371 * Real.arccos
        (Real.cos (radians lat1) * Real.cos (radians lat2) *
          Real.cos (radians lon2 - radians lon1) +
         Real.sin (radians lat1) * Real.sin (radians lat2)) := by
  rw [calculateDistance_def]
  rw [show (lat2 - lat1) * Real.pi / 180 = radians lat2 - radians lat1 by
    unfold radians; ring]
  rw [show (lon2 - lon1) * Real.pi / 180 = radians lon2 - radians lon1 by
    unfold radians; ring]
  rw [show lat1 * Real.pi / 180 = radians lat1 from rfl,
    show lat2 * Real.pi / 180 = radians lat2 from rfl]
  rw [haversine_core (radians lat1) (radians lat2) (radians lon1) (radians lon2)]

/-- Claim C3. Over the real-number model, both the client haversine
`calculateDistance` and the SQL `calculate_distance` equal the spec's clamped
law-of-cosines distance: the `acos` argument always lies in `[-1, 1]`, so the
clamp is the identity, and the haversine form evaluates to the same angle. -/
theorem c3_distance_formula (lat1 lon1 lat2 lon2 : ℝ) :
    calculateDistance lat1 lon1 lat2 lon2 =
        computeDistanceKmSpec lat1 lon1 lat2 lon2 ∧
    calculate_distance lat1 lon1 lat2 lon2 =
        computeDistanceKmSpec lat1 lon1 lat2 lon2 := by
  have hge := law_arg_ge_neg_one (radians lat1) (radians lat2)
    (radians lon2 - radians lon1)
  have hle := law_arg_le_one (radians lat1) (radians lat2)
    (radians lon2 - radians lon1)
  have hcomm : Real.sin (radians lat1) * Real.sin (radians lat2) +
      Real.cos (radians lat1) * Real.cos (radians lat2) *
        Real.cos (radians lon2 - radians lon1) =
      Real.cos (radians lat1) * Real.cos (radians lat2) *
        Real.cos (radians lon2 - radians lon1) +
      Real.sin (radians lat1) * Real.sin (radians lat2) := by ring
  have hclamp : computeDistanceKmSpec lat1 lon1 lat2 lon2 =
      6371 * Real.arccos
        (Real.cos (radians lat1) * Real.cos (radians lat2) *
          Real.cos (radians lon2 - radians lon1) +
         Real.sin (radians lat1) * Real.sin (radians lat2)) := by
    rw [computeDistanceKmSpec, hcomm, min_eq_right hle, max_eq_right hge]
  exact ⟨by rw [calculateDistance_eq_arccos, hclamp],
    by rw [calculate_distance, hclamp]⟩

/-- Claim C9. The client distance function is symmetric in its two points. -/
theorem c9_distance_symmetric (lat1 lon1 lat2 lon2 : ℝ) :
    calculateDistance lat1 lon1 lat2 lon2 =
      calculateDistance lat2 lon2 lat1 lon1 := by
  rw [calculateDistance_eq_arccos, calculateDistance_eq_arccos]
  congr 1
  rw [show radians lon1 - radians lon2 = -(radians lon2 - radians lon1) by ring,
    Real.cos_neg]
  ring_nf
